import Mathlib

/-!
A shallow embedding of `lib/couchdb.js`, a callback-style CouchDB HTTP client,
together with theorems checking the natural-language specification against it.

Modelling conventions:

* JavaScript values that flow through the client (documents, parsed response
  bodies, query objects) are modelled by `JVal`: either a primitive or a flat
  object whose field values are primitives.  Every field the source inspects
  (`error`, `reason`, `id`, `rev`, `_id`, `_rev`) holds a primitive in all the
  behaviours under scrutiny, so the flat universe loses nothing relevant.
  The primitive `JPrim.cyc` stands for a non-string value on which
  `JSON.stringify` throws (for example a circular structure).
* The network is modelled by an explicit event (`NetEvent`): either the
  `error` event of the HTTP client (a transport failure) or a completed,
  fully buffered response whose body is already JSON-parsed
  (`HttpResponse.body`; the empty buffer is parsed to `null` by the source,
  modelled as `JVal.prim .null`).
* Each callback of the source becomes a Lean function from the callback's
  arguments to the operation's outcome; an operation is the composition of
  those functions, threading the network events it consumes.  Operations
  additionally return the list of `client` invocations they perform
  (`ClientCall`), so that claims of the form "no write is issued" are
  statable.
* `err` objects constructed by the source are modelled by the tagged type
  `Err`; the tag records the construction site (serialization exception,
  transport error event, structured server error, bare status failure),
  which is exactly the classification the specification names.
-/

/-- A JavaScript primitive value, as far as this client inspects values.
`cyc` abstracts any non-string value on which `JSON.stringify` throws. -/
inductive JPrim where
  | undefined : JPrim
  | null : JPrim
  | bool : Bool → JPrim
  | num : Int → JPrim
  | str : String → JPrim
  | cyc : String → JPrim
deriving DecidableEq

/-- A JavaScript value: a primitive, or a flat object with primitive fields. -/
inductive JVal where
  | prim : JPrim → JVal
  | obj : List (String × JPrim) → JVal
deriving DecidableEq

def jnull : JVal := .prim .null

def jstr (s : String) : JVal := .prim (.str s)

/-- JavaScript truthiness of a primitive. -/
def JPrim.truthy : JPrim → Bool
  | .undefined => false
  | .null => false
  | .bool b => b
  | .num n => n != 0
  | .str s => s != ""
  | .cyc _ => true

/-- JavaScript truthiness: objects are always truthy. -/
def JVal.truthy : JVal → Bool
  | .prim p => p.truthy
  | .obj _ => true

/-- `typeof v === 'string'`. -/
def JVal.isString : JVal → Bool
  | .prim (.str _) => true
  | _ => false

def JVal.asStr : JVal → String
  | .prim (.str s) => s
  | _ => ""

/-- `v === null || v === undefined` (property access on such a value throws). -/
def JVal.nullish : JVal → Bool
  | .prim .null => true
  | .prim .undefined => true
  | _ => false

/-- Property read `v.k`.  On an object it yields the field or `undefined`;
on a non-nullish primitive it yields `undefined`.  Every use below is guarded
so that it is never applied where JavaScript would throw (null/undefined). -/
def JVal.getF : JVal → String → JPrim
  | .obj fs, k => (fs.lookup k).getD .undefined
  | .prim _, _ => .undefined

/-- Whether an object value has a field named `k` at all. -/
def JVal.hasField : JVal → String → Bool
  | .obj fs, k => (fs.lookup k).isSome
  | .prim _, _ => false

/-- Property write on an association list: replace in place or append. -/
def setEntry : List (String × JPrim) → String → JPrim → List (String × JPrim)
  | [], k, v => [(k, v)]
  | (k0, v0) :: rest, k, v =>
      if k0 == k then (k, v) :: rest else (k0, v0) :: setEntry rest k v

/-- Property write `v.k = x`.  On a primitive it is a silent no-op
(non-strict JavaScript); no use below writes to a nullish value. -/
def JVal.setField : JVal → String → JPrim → JVal
  | .obj fs, k, v => .obj (setEntry fs k v)
  | .prim p, _, _ => .prim p

def escChar (c : Char) : String :=
  if c == '"' then "\\\"" else if c == '\\' then "\\\\" else String.singleton c

def jsonEscape (s : String) : String :=
  String.join (s.toList.map escChar)

/-- `JSON.stringify` on a primitive.  `undefined` serializes to no output
(`.ok none`), and `cyc` values throw. -/
def JPrim.stringifyP : JPrim → Except String (Option String)
  | .undefined => .ok none
  | .null => .ok (some "null")
  | .bool b => .ok (some (cond b "true" "false"))
  | .num n => .ok (some (toString n))
  | .str s => .ok (some ("\"" ++ jsonEscape s ++ "\""))
  | .cyc t => .error ("Converting circular structure to JSON: " ++ t)

/-- Serialize the fields of an object; fields whose value serializes to no
output (`undefined`) are skipped, and a throwing value propagates. -/
def stringifyFields : List (String × JPrim) → Except String (List String)
  | [] => .ok []
  | (k, v) :: rest => do
      let sv ← v.stringifyP
      let others ← stringifyFields rest
      match sv with
      | none => .ok others
      | some s => .ok (("\"" ++ jsonEscape k ++ "\":" ++ s) :: others)

/-- `JSON.stringify`. -/
def JVal.stringify : JVal → Except String (Option String)
  | .prim p => p.stringifyP
  | .obj fs =>
      (stringifyFields fs).map
        (fun ps => some ("\x7b" ++ String.intercalate "," ps ++ "\x7d"))

/-- `querystring.stringify` coercion of one value to a string. -/
def JPrim.qsCoerce : JPrim → String
  | .str s => s
  | .num n => toString n
  | .bool b => cond b "true" "false"
  | _ => ""

/-- `querystring.stringify` (URL-escaping of the pieces is not modelled;
no claim inspects the encoded text). -/
def qstringify : JVal → String
  | .obj fs => String.intercalate "&" (fs.map (fun kv => kv.1 ++ "=" ++ kv.2.qsCoerce))
  | .prim _ => ""

/-- `url.parse(path).pathname`: the part before any query or fragment. -/
def pathnameOf (p : String) : String :=
  p.takeWhile (fun c => c != '?' && c != '#')

/-- The result of `url.parse(db_url)` for a URL that parsed successfully;
fields are `none` when absent from the URL (`url.parse` yields null). -/
structure ParsedUrl where
  protocol : Option String
  hostname : Option String
  port : Option Nat
  pathname : Option String
  auth : Option String

/-- `this.instance` after the `CouchDB` constructor ran: the parsed URL with
the port resolved to a concrete number. -/
structure Instance where
  protocol : Option String
  hostname : Option String
  port : Nat
  pathname : Option String
  auth : Option String

/-- The `CouchDB` constructor (lines 35-45): `if (!ins.port)` default the
port to 443 for `https:` and to 80 otherwise. -/
def mkCouchDB (u : ParsedUrl) : Instance :=
  { protocol := u.protocol
    hostname := u.hostname
    pathname := u.pathname
    auth := u.auth
    port :=
      match u.port with
      | some p => p
      | none => if u.protocol == some "https:" then 443 else 80 }

/-- A completed HTTP response, fully buffered, with the body already parsed:
the source runs `buffer.length ? JSON.parse(buffer.join('')) : null`, so an
empty body is the primitive `null`.  `etag` is `response.headers.etag`
(`none` when the header is absent). -/
structure HttpResponse where
  statusCode : Nat
  etag : Option String
  body : JVal
deriving DecidableEq

/-- What the network does for one request: either the client object emits an
`error` event (transport failure), or a response completes. -/
inductive NetEvent where
  | netError : String → NetEvent
  | response : HttpResponse → NetEvent
deriving DecidableEq

/-- The error value handed to a callback, tagged by its construction site in
the source (the specification's SerializationFailure / TransportFailure /
DatabaseError / StatusFailure kinds). -/
inductive Err where
  | ser : String → Err
  | net : String → Err
  | db : JPrim → JPrim → Err
  | status : Nat → Err
deriving DecidableEq

/-- The arguments `client` passes to its callback. -/
inductive CbOut where
  | errOnly : Err → CbOut
  | failed : Err → JVal → HttpResponse → CbOut
  | ok : JVal → HttpResponse → CbOut
deriving DecidableEq

/-- The wire-level request issued by `client`: `body = none` means
`request.write` was never called. -/
structure Request where
  method : String
  path : String
  body : Option String
deriving DecidableEq

/-- What one `client` invocation does: either it short-circuits before any
network activity (`http.createClient` never runs), or it sends a request and
eventually invokes its callback. -/
inductive ClientResult where
  | noRequest : String → ClientResult
  | sent : Request → CbOut → ClientResult
deriving DecidableEq

/-- The callback arguments produced by a `ClientResult`: a serialization
exception is passed as `callback(e)` with no data or response. -/
def ClientResult.outcome : ClientResult → CbOut
  | .noRequest e => .errOnly (.ser e)
  | .sent _ o => o

/-- The `response.on('end')` handler of `client` (lines 129-149): statuses
below 300 succeed; statuses at 300 and above fail, with a structured server
error preferred when `data && data.error` is truthy.  The parsed body is
passed to the callback in every completed case. -/
def classifyResponse (r : HttpResponse) : CbOut :=
  let data := r.body
  if 300 ≤ r.statusCode then
    if data.truthy && (data.getF "error").truthy then
      .failed (.db (data.getF "error") (data.getF "reason")) data r
    else
      .failed (.status r.statusCode) data r
  else
    .ok data r

/-- Dispatch on the network event: the `client.on('error', callback)` wiring
(line 115) and the response handler. -/
def dispatch : NetEvent → CbOut
  | .netError e => .errOnly (.net e)
  | .response r => classifyResponse r

/-- The body-preparation step of `client` for POST/PUT (lines 94-102):
a payload that is already a string is used verbatim, anything else goes
through `JSON.stringify` inside `try/catch`. -/
def JVal.writeData (d : JVal) : Except String (Option String) :=
  if d.isString then .ok (some d.asStr) else d.stringify

/-- `request.write(data, 'utf8')` runs only when the prepared data is truthy
(line 152): a non-empty string. -/
def bodyOf : Option String → Option String
  | some s => if s == "" then none else some s
  | none => none

/-- `CouchDB.prototype.client` (lines 87-158).  The path is prefixed with the
instance pathname; POST/PUT payloads are serialized (a `JSON.stringify`
exception returns to the callback before `http.createClient` runs); other
methods with a truthy payload move it into the query string. -/
def client (ins : Instance) (method path0 : String) (data : JVal)
    (ev : NetEvent) : ClientResult :=
  let path := ins.pathname.getD "" ++ "/" ++ path0
  if method == "POST" || method == "PUT" then
    match data.writeData with
    | .error e => .noRequest e
    | .ok ds => .sent ⟨method, path, bodyOf ds⟩ (dispatch ev)
  else if data.truthy then
    .sent ⟨method, pathnameOf path ++ "?" ++ qstringify data, none⟩ (dispatch ev)
  else
    .sent ⟨method, path, none⟩ (dispatch ev)

/-- A record of one `client` invocation (method, path and data arguments),
used to state which requests an operation issues. -/
structure ClientCall where
  method : String
  path : String
  data : JVal
deriving DecidableEq

/-- The `client` invocation made by `CouchDB.prototype.exists`. -/
def existsCall (id : String) : ClientCall := ⟨"HEAD", id, jnull⟩

/-- What `exists` hands to its caller: `callback(err)` or
`callback(null, exists, _rev)` (with `_rev = none` modelling `null`). -/
inductive ExistsOut where
  | err : Err → ExistsOut
  | ok : Bool → Option String → ExistsOut
deriving DecidableEq

/-- `etag ? etag.substr(1, etag.length - 2) : null` (line 178): a falsy etag
(absent header or empty string) yields null, otherwise the first and last
characters are dropped. -/
def revOfEtag : Option String → Option String
  | none => none
  | some s => if s == "" then none else some ((s.drop 1).dropRight 1)

/-- The callback body of `CouchDB.prototype.exists` (lines 171-180):
`res = res || {}` (so a missing response has an undefined status, which is
not 404); an error is surfaced unless the status is 404; otherwise
existence is `statusCode === 200` and the revision comes from the etag. -/
def existsStep : CbOut → ExistsOut
  | .errOnly e => .err e
  | .failed e _ r =>
      if r.statusCode == 404 then .ok (r.statusCode == 200) (revOfEtag r.etag)
      else .err e
  | .ok _ r => .ok (r.statusCode == 200) (revOfEtag r.etag)

/-- `CouchDB.prototype.exists` (lines 169-181): a HEAD request on `id` with
no payload, post-processed by `existsStep`.  (`exists` is a reserved word in
Lean, hence the name.) -/
def existsFn (ins : Instance) (id : String) (ev : NetEvent) : ExistsOut :=
  existsStep (client ins "HEAD" id jnull ev).outcome

/-- The revision value `exists` passes on, as assigned into a document:
a string, or `null` when no etag was present. -/
def jrev : Option String → JPrim
  | some s => .str s
  | none => .null

/-- What `save` hands to its caller.  The force path calls `callback(err)`
on any write error and `callback(null, doc)` on success; the non-force path
hands the `client` callback through unchanged.  `crash` models the uncaught
TypeError of `d.id` when the success body is null or undefined. -/
inductive SaveOut where
  | errOnly : Err → SaveOut
  | failed : Err → JVal → HttpResponse → SaveOut
  | savedDoc : JVal → SaveOut
  | ok : JVal → HttpResponse → SaveOut
  | crash : SaveOut
deriving DecidableEq

/-- The non-force path of `save` passes `callback` straight to `client`. -/
def passCb : CbOut → SaveOut
  | .errOnly e => .errOnly e
  | .failed e d r => .failed e d r
  | .ok d r => .ok d r

/-- The write callback of the force path of `save` (lines 233-240):
`if (err) return callback(err)`, else `doc._id = d.id; doc._rev = d.rev;
callback(null, doc)`. -/
def saveWriteCb (doc2 : JVal) : CbOut → SaveOut
  | .errOnly e => .errOnly e
  | .failed e _ _ => .errOnly e
  | .ok d _ =>
      if d.nullish then .crash
      else .savedDoc ((doc2.setField "_id" (d.getF "id")).setField "_rev" (d.getF "rev"))

/-- `CouchDB.prototype.save` (lines 213-246).  Method is PUT when an id is
supplied and POST otherwise.  With `force`, the document is first probed:
a probe error returns immediately (no write `client` call); if the document
exists its revision is stamped onto `doc` before the write.  Without
`force`, a single write request is issued and the callback is handed
through.  The returned list records the `client` invocations in order. -/
def save (ins : Instance) (id : String) (doc : JVal) (force : Bool)
    (probeEv writeEv : NetEvent) : List ClientCall × SaveOut :=
  let method := if id == "" then "POST" else "PUT"
  let path := id
  if force then
    match existsFn ins id probeEv with
    | .err e => ([existsCall id], .errOnly e)
    | .ok found rev =>
        let doc2 := if found then doc.setField "_rev" (jrev rev) else doc
        ([existsCall id, ⟨method, path, doc2⟩],
          saveWriteCb doc2 (client ins method path doc2 writeEv).outcome)
  else
    ([⟨method, path, doc⟩], passCb (client ins method path doc writeEv).outcome)

/-- `CouchDB.prototype.delete` (lines 261-290).  The revision, when truthy,
is carried in a query-object `args`; with `force` the document is probed
first and, when it exists, the probed revision overwrites `args.rev`. -/
def deleteDoc (ins : Instance) (id : String) (rev : JPrim) (force : Bool)
    (probeEv writeEv : NetEvent) : List ClientCall × CbOut :=
  let args : JVal := if rev.truthy then .obj [("rev", rev)] else .obj []
  let path := id
  if force then
    match existsFn ins id probeEv with
    | .err e => ([existsCall id], .errOnly e)
    | .ok found prev =>
        let args2 := if found then args.setField "rev" (jrev prev) else args
        ([existsCall id, ⟨"DELETE", path, args2⟩],
          (client ins "DELETE" path args2 writeEv).outcome)
  else
    ([⟨"DELETE", path, args⟩], (client ins "DELETE" path args writeEv).outcome)

/-- The `client` invocation made by `CouchDB.prototype.createDB`
(line 72): `this.client('PUT', '', null, callback)`. -/
def createDBCall : ClientCall := ⟨"PUT", "", jnull⟩

/-- What `ensureDB` hands to its caller: `callback(err, that)` with a null
or real error, or the `createDB` outcome handed through. -/
inductive EnsureOut where
  | errOut : Err → EnsureOut
  | existsOk : EnsureOut
  | created : CbOut → EnsureOut
deriving DecidableEq

/-- `CouchDB.prototype.ensureDB` (lines 54-62): probe the root path; on a
probe error or existence return `callback(err, that)` without creating;
otherwise run `createDB`. -/
def ensureDB (ins : Instance) (probeEv createEv : NetEvent) :
    List ClientCall × EnsureOut :=
  match existsFn ins "" probeEv with
  | .err e => ([existsCall ""], .errOut e)
  | .ok true _ => ([existsCall ""], .existsOk)
  | .ok false _ =>
      ([existsCall "", createDBCall],
        .created (client ins "PUT" "" jnull createEv).outcome)

/-- A sample parsed base URL used by concrete witnesses. -/
def url0 : ParsedUrl := ⟨some "http:", some "localhost", some 5984, some "/db", none⟩

/-- A sample instance used by concrete witnesses. -/
def ins0 : Instance := mkCouchDB url0

/-- The specification's 409 example body. -/
def conflictBody : JVal :=
  .obj [("error", .str "conflict"), ("reason", .str "Document update conflict.")]

/-- A 409 response carrying the specification's example body. -/
def conflictResp : HttpResponse := ⟨409, none, conflictBody⟩

/-- A body that contains an `error` field whose value is falsy. -/
def emptyErrBody : JVal := .obj [("error", .str "")]

/-- A 400 response whose body has a falsy `error` field. -/
def emptyErrResp : HttpResponse := ⟨400, none, emptyErrBody⟩

/-- A caller-built document used in save examples. -/
def docNF : JVal := .obj [("name", .str "x")]

/-- A successful write-response body (`ok`, `id`, `rev`). -/
def writeOkBody : JVal :=
  .obj [("ok", .bool true), ("id", .str "a"), ("rev", .str "1-n")]

/-- A 201 response to a successful write. -/
def writeOkResp : HttpResponse := ⟨201, none, writeOkBody⟩

/-! ## Helper lemmas -/

theorem lookup_setEntry (fs : List (String × JPrim)) (k : String) (v : JPrim) :
    (setEntry fs k v).lookup k = some v := by
  induction fs with
  | nil => simp [setEntry, List.lookup]
  | cons hd tl ih =>
      obtain ⟨a, b⟩ := hd
      by_cases h : a = k
      · simp [setEntry, h, List.lookup]
      · simp only [setEntry, beq_iff_eq, h, if_false, List.lookup]
        have h2 : (k == a) = false := by
          simp [beq_eq_false_iff_ne]
          exact fun hk => h hk.symm
        simp [h2, ih]

theorem getF_setField (fs : List (String × JPrim)) (k : String) (v : JPrim) :
    ((JVal.obj fs).setField k v).getF k = v := by
  simp [JVal.setField, JVal.getF, lookup_setEntry]

theorem client_sent_dispatch (ins : Instance) (m p : String) (d : JVal)
    (ev : NetEvent) (req : Request) (o : CbOut)
    (h : client ins m p d ev = .sent req o) : o = dispatch ev := by
  simp only [client] at h
  by_cases hm : (m == "POST" || m == "PUT") = true
  · rw [if_pos hm] at h
    cases hw : d.writeData with
    | error e => rw [hw] at h; exact absurd h (by simp)
    | ok ds =>
        rw [hw] at h
        injection h with h1 h2
        exact h2.symm
  · rw [if_neg hm] at h
    by_cases ht : d.truthy = true
    · rw [if_pos ht] at h
      injection h with h1 h2
      exact h2.symm
    · rw [if_neg ht] at h
      injection h with h1 h2
      exact h2.symm

theorem client_write_ok (ins : Instance) (m p : String) (d : JVal)
    (b : Option String) (ev : NetEvent)
    (hm : m = "POST" ∨ m = "PUT") (hd : d.writeData = .ok b) :
    client ins m p d ev =
      .sent ⟨m, ins.pathname.getD "" ++ "/" ++ p, bodyOf b⟩ (dispatch ev) := by
  rcases hm with h | h <;> subst h <;> simp [client, hd]

/-! ## Claim theorems -/

/-- Claim C9: for every base URL that parses successfully with no explicit
port, the constructed instance resolves the port to 443 for the `https:`
scheme and to 80 for every other scheme. -/
theorem C9_default_port (u : ParsedUrl) (h : u.port = none) :
    (mkCouchDB u).port = if u.protocol == some "https:" then 443 else 80 := by
  simp [mkCouchDB, h]

theorem C9_default_port_witness :
    (mkCouchDB ⟨some "https:", some "example.com", none, some "/db", none⟩).port = 443 :=
  C9_default_port ⟨some "https:", some "example.com", none, some "/db", none⟩ rfl

/-- Claim C8: a POST/PUT whose payload fails JSON serialization returns the
serialization error at once, with no request sent (`ClientResult.noRequest`
is reached before `http.createClient` runs in the source). -/
theorem C8_serialization_short_circuit (ins : Instance) (method path : String)
    (data : JVal) (ev : NetEvent) (e : String)
    (hm : method = "POST" ∨ method = "PUT")
    (hs : data.isString = false)
    (hf : data.stringify = .error e) :
    client ins method path data ev = .noRequest e := by
  rcases hm with h | h <;> subst h <;>
    simp [client, JVal.writeData, hs, hf]

theorem C8_serialization_short_circuit_witness :
    client ins0 "POST" "doc1" (.prim (.cyc "self")) (.response ⟨201, none, jnull⟩) =
      .noRequest ("Converting circular structure to JSON: " ++ "self") :=
  C8_serialization_short_circuit ins0 "POST" "doc1" (.prim (.cyc "self"))
    (.response ⟨201, none, jnull⟩) ("Converting circular structure to JSON: " ++ "self")
    (Or.inl rfl) rfl rfl

/-- Claim C10: a POST/PUT whose payload is already a string sends that string
verbatim as the request body (no JSON re-encoding), and a serialization
failure (`noRequest`) can only arise for a non-string payload. -/
theorem C10_string_payload_verbatim (ins : Instance) (method path s : String)
    (ev : NetEvent) (hm : method = "POST" ∨ method = "PUT") :
    (client ins method path (jstr s) ev =
      .sent ⟨method, ins.pathname.getD "" ++ "/" ++ path, bodyOf (some s)⟩ (dispatch ev))
    ∧ (bodyOf (some s)).getD "" = s
    ∧ ∀ (i2 : Instance) (m2 p2 : String) (d2 : JVal) (e2 : NetEvent) (msg : String),
        client i2 m2 p2 d2 e2 = .noRequest msg → d2.isString = false := by
  refine ⟨client_write_ok ins method path (jstr s) (some s) ev hm rfl, ?_, ?_⟩
  · by_cases h : s = "" <;> simp [bodyOf, h]
  · intro i2 m2 p2 d2 e2 msg h
    by_cases hs : d2.isString = true
    · exfalso
      simp only [client] at h
      by_cases hm2 : (m2 == "POST" || m2 == "PUT") = true
      · rw [if_pos hm2] at h
        rw [show d2.writeData = .ok (some d2.asStr) by simp [JVal.writeData, hs]] at h
        exact ClientResult.noConfusion h
      · rw [if_neg hm2] at h
        by_cases ht : d2.truthy = true
        · rw [if_pos ht] at h; exact ClientResult.noConfusion h
        · rw [if_neg ht] at h; exact ClientResult.noConfusion h
    · exact Bool.not_eq_true _ ▸ (Bool.eq_false_iff.mpr (fun hc => hs hc))

theorem C10_string_payload_verbatim_witness :
    (client ins0 "PUT" "doc1" (jstr "hello") (.response ⟨201, none, jnull⟩) =
      .sent ⟨"PUT", ins0.pathname.getD "" ++ "/" ++ "doc1", bodyOf (some "hello")⟩
        (dispatch (.response ⟨201, none, jnull⟩)))
    ∧ (bodyOf (some "hello")).getD "" = "hello"
    ∧ ∀ (i2 : Instance) (m2 p2 : String) (d2 : JVal) (e2 : NetEvent) (msg : String),
        client i2 m2 p2 d2 e2 = .noRequest msg → d2.isString = false :=
  C10_string_payload_verbatim ins0 "PUT" "doc1" "hello"
    (.response ⟨201, none, jnull⟩) (Or.inr rfl)

theorem existsStep_classify_ok (r : HttpResponse) (found : Bool) (rv : Option String)
    (h : existsStep (classifyResponse r) = .ok found rv) :
    found = (r.statusCode == 200) ∧ rv = revOfEtag r.etag := by
  rcases Nat.lt_or_ge r.statusCode 300 with hlt | hge
  · have hc : classifyResponse r = .ok r.body r := by
      simp [classifyResponse, Nat.not_le.mpr hlt]
    rw [hc] at h
    simp only [existsStep] at h
    injection h with h1 h2
    exact ⟨h1.symm, h2.symm⟩
  · by_cases h4 : (r.statusCode == 404) = true
    all_goals
      by_cases he : (r.body.truthy && (r.body.getF "error").truthy) = true
    · have hc : classifyResponse r =
          .failed (.db (r.body.getF "error") (r.body.getF "reason")) r.body r := by
        simp [classifyResponse, hge, he]
      rw [hc] at h
      simp only [existsStep, h4, if_true] at h
      injection h with h1 h2
      exact ⟨h1.symm, h2.symm⟩
    · have hc : classifyResponse r = .failed (.status r.statusCode) r.body r := by
        simp [classifyResponse, hge, he]
      rw [hc] at h
      simp only [existsStep, h4, if_true] at h
      injection h with h1 h2
      exact ⟨h1.symm, h2.symm⟩
    · have hc : classifyResponse r =
          .failed (.db (r.body.getF "error") (r.body.getF "reason")) r.body r := by
        simp [classifyResponse, hge, he]
      rw [hc] at h
      simp only [existsStep, h4, if_false] at h
      exact absurd h (by simp)
    · have hc : classifyResponse r = .failed (.status r.statusCode) r.body r := by
        simp [classifyResponse, hge, he]
      rw [hc] at h
      simp only [existsStep, h4, if_false] at h
      exact absurd h (by simp)

/-- Claim C2 (amended): for every completed response, a status below 300 is a
success; a status at 300 or above with a truthy `error` field in the parsed
body yields the structured server error (code and reason); otherwise it
yields the bare status-code error.  Both failure forms pass the parsed body
(and the response) to the caller.  The amendment relative to the claim as
written: the body must contain a truthy `error` field, not merely contain an
`error` field — a falsy value such as the empty string is treated as
unstructured (see the counterexample). -/
theorem C2_status_classification (ins : Instance) (method path : String)
    (data : JVal) (r : HttpResponse) (req : Request) (out : CbOut)
    (h : client ins method path data (.response r) = .sent req out) :
    (r.statusCode < 300 → out = .ok r.body r)
    ∧ (300 ≤ r.statusCode →
        (r.body.truthy && (r.body.getF "error").truthy) = true →
        out = .failed (.db (r.body.getF "error") (r.body.getF "reason")) r.body r)
    ∧ (300 ≤ r.statusCode →
        (r.body.truthy && (r.body.getF "error").truthy) = false →
        out = .failed (.status r.statusCode) r.body r) := by
  have ho : out = classifyResponse r :=
    client_sent_dispatch ins method path data (.response r) req out h
  subst ho
  refine ⟨?_, ?_, ?_⟩
  · intro hlt
    simp [classifyResponse, Nat.not_le.mpr hlt]
  · intro hge herr
    simp [classifyResponse, hge, herr]
  · intro hge herr
    simp [classifyResponse, hge, herr]

theorem C2_status_classification_witness :
    classifyResponse conflictResp =
      .failed (.db (conflictBody.getF "error") (conflictBody.getF "reason"))
        conflictBody conflictResp :=
  (C2_status_classification ins0 "PUT" "d" jnull conflictResp
      ⟨"PUT", "/db/d", some "null"⟩ (classifyResponse conflictResp) rfl).2.1
    (by decide) (by decide)

/-- Claim C2, counterexample to the claim as stated: a 400 response whose
body does contain an `error` field (with the falsy value `""`) is classified
as a bare status failure, not as a structured server error carrying the
server's code. -/
theorem C2_counterexample :
    emptyErrBody.hasField "error" = true
    ∧ client ins0 "GET" "x" jnull (.response emptyErrResp) =
        .sent ⟨"GET", "/db/x", none⟩
          (.failed (.status 400) emptyErrBody emptyErrResp)
    ∧ Err.status 400 ≠ Err.db (emptyErrBody.getF "error") (emptyErrBody.getF "reason") :=
  ⟨rfl, rfl, fun h => Err.noConfusion h⟩

/-- Claim C4 (amended): whenever a probe that completed with an HTTP response
reports a result, the exists flag is true exactly when the status is 200, and
the revision is the entity-tag header with its first and last characters
stripped — where a falsy etag (absent header, or a header whose value is the
empty string) yields a null revision.  The amendment relative to the claim as
written: a present-but-empty header also yields null (see the
counterexample). -/
theorem C4_probe_flag_and_revision (ins : Instance) (id : String)
    (r : HttpResponse) (found : Bool) (rv : Option String)
    (h : existsFn ins id (.response r) = .ok found rv) :
    found = (r.statusCode == 200) ∧ rv = revOfEtag r.etag :=
  existsStep_classify_ok r found rv h

theorem C4_probe_flag_and_revision_witness :
    true = ((200 : Nat) == 200) ∧ some "3-abc" = revOfEtag (some "\"3-abc\"") :=
  C4_probe_flag_and_revision ins0 "d" ⟨200, some "\"3-abc\"", jnull⟩ true
    (some "3-abc") (by decide)

/-- Claim C4, counterexample to the claim as stated: a 200 response whose
entity-tag header is present but empty yields a null revision, not the
empty string that stripping the first and last characters would produce. -/
theorem C4_counterexample :
    existsFn ins0 "d" (.response ⟨200, some "", jnull⟩) = .ok true none
    ∧ (some "" : Option String) ≠ none
    ∧ (none : Option String) ≠ some (("".drop 1).dropRight 1) :=
  ⟨by decide, by decide, by decide⟩

/-- Claim C5 (amended): a 404 status is not surfaced as a probe error — it
yields a non-error result with the exists flag false and the revision read
from the entity-tag header as usual (null when the header is absent); every
other status at 300 or above is surfaced as an error, and so is a transport
failure.  The amendment relative to the claim as written: on a 404 the
revision is not unconditionally null — a 404 response carrying an entity-tag
yields that tag's stripped value (see the counterexample). -/
theorem C5_probe_error_policy (ins : Instance) (id : String) :
    (∀ r : HttpResponse, r.statusCode = 404 →
        existsFn ins id (.response r) = .ok false (revOfEtag r.etag))
    ∧ (∀ r : HttpResponse, 300 ≤ r.statusCode → r.statusCode ≠ 404 →
        ∃ e, existsFn ins id (.response r) = .err e)
    ∧ (∀ msg, existsFn ins id (.netError msg) = .err (.net msg)) := by
  refine ⟨?_, ?_, fun msg => rfl⟩
  · intro r h404
    have h1 : existsFn ins id (.response r) = existsStep (classifyResponse r) := rfl
    rw [h1]
    have hge : 300 ≤ r.statusCode := by omega
    by_cases he : (r.body.truthy && (r.body.getF "error").truthy) = true
    · have hc : classifyResponse r =
          .failed (.db (r.body.getF "error") (r.body.getF "reason")) r.body r := by
        simp [classifyResponse, hge, he]
      rw [hc]
      simp [existsStep, h404]
    · have hc : classifyResponse r = .failed (.status r.statusCode) r.body r := by
        simp [classifyResponse, hge, he]
      rw [hc]
      simp [existsStep, h404]
  · intro r hge h404
    have h1 : existsFn ins id (.response r) = existsStep (classifyResponse r) := rfl
    have h404b : (r.statusCode == 404) = false := by
      simp [Nat.beq_eq_true_eq]
      exact h404
    by_cases he : (r.body.truthy && (r.body.getF "error").truthy) = true
    · refine ⟨.db (r.body.getF "error") (r.body.getF "reason"), ?_⟩
      have hc : classifyResponse r =
          .failed (.db (r.body.getF "error") (r.body.getF "reason")) r.body r := by
        simp [classifyResponse, hge, he]
      rw [h1, hc]
      simp [existsStep, h404b]
    · refine ⟨.status r.statusCode, ?_⟩
      have hc : classifyResponse r = .failed (.status r.statusCode) r.body r := by
        simp [classifyResponse, hge, he]
      rw [h1, hc]
      simp [existsStep, h404b]

theorem C5_probe_error_policy_witness :
    existsFn ins0 "missing" (.response ⟨404, none, jnull⟩) = .ok false (revOfEtag none) :=
  (C5_probe_error_policy ins0 "missing").1 ⟨404, none, jnull⟩ rfl

/-- Claim C5, counterexample to the claim as stated: a 404 response that
carries an entity-tag header yields a non-null revision, not the
`(exists = false, revision = null)` pair the claim promises for every 404. -/
theorem C5_counterexample :
    existsFn ins0 "d" (.response ⟨404, some "\"9-z\"", jnull⟩) = .ok false (some "9-z")
    ∧ some "9-z" ≠ (none : Option String) :=
  ⟨by decide, by decide⟩

theorem classify_lt (r : HttpResponse) (hlt : r.statusCode < 300) :
    classifyResponse r = .ok r.body r := by
  simp [classifyResponse, Nat.not_le.mpr hlt]

/-- Claim C1: with `force`, when the probe reports that the document exists
with revision R, the write `client` call carries the document with its
`_rev` field set to R, whatever revision the caller's document held before;
and when the probe itself fails, that error is returned and the only
`client` call made is the HEAD probe (no write is issued). -/
theorem C1_force_save_revision (ins : Instance) (id : String)
    (fs : List (String × JPrim)) (R : String) (probeEv writeEv : NetEvent) :
    (existsFn ins id probeEv = .ok true (some R) →
      (save ins id (.obj fs) true probeEv writeEv).1 =
        [existsCall id,
         ⟨if id == "" then "POST" else "PUT", id,
          (JVal.obj fs).setField "_rev" (.str R)⟩]
      ∧ ((JVal.obj fs).setField "_rev" (.str R)).getF "_rev" = .str R)
    ∧ (∀ e, existsFn ins id probeEv = .err e →
        save ins id (.obj fs) true probeEv writeEv = ([existsCall id], .errOnly e)) := by
  constructor
  · intro h
    exact ⟨by simp [save, h, jrev], getF_setField fs "_rev" (.str R)⟩
  · intro e h
    simp [save, h]

theorem C1_force_save_revision_witness :
    ((save ins0 "doc1" (.obj [("_rev", .str "1-old"), ("name", .str "x")]) true
        (.response ⟨200, some "\"2-new\"", jnull⟩) (.response writeOkResp)).1 =
      [existsCall "doc1",
       ⟨"PUT", "doc1",
        (JVal.obj [("_rev", .str "1-old"), ("name", .str "x")]).setField "_rev"
          (.str "2-new")⟩]
      ∧ ((JVal.obj [("_rev", .str "1-old"), ("name", .str "x")]).setField "_rev"
          (.str "2-new")).getF "_rev" = .str "2-new") :=
  (C1_force_save_revision ins0 "doc1" [("_rev", .str "1-old"), ("name", .str "x")]
      "2-new" (.response ⟨200, some "\"2-new\"", jnull⟩) (.response writeOkResp)).1
    (by decide)

/-- Claim C6: with `force` and a probe reporting non-existence (no probe
error), the save write carries the caller's document unchanged, and the
delete carries exactly the `args` object built from the caller's revision —
the same object the non-force path sends. -/
theorem C6_force_missing_doc_keeps_revision (ins : Instance) (id : String)
    (doc : JVal) (rev : JPrim) (rv : Option String) (probeEv writeEv : NetEvent)
    (h : existsFn ins id probeEv = .ok false rv) :
    (save ins id doc true probeEv writeEv).1 =
      [existsCall id, ⟨if id == "" then "POST" else "PUT", id, doc⟩]
    ∧ (deleteDoc ins id rev true probeEv writeEv).1 =
      [existsCall id,
       ⟨"DELETE", id, if rev.truthy then .obj [("rev", rev)] else .obj []⟩]
    ∧ (deleteDoc ins id rev false probeEv writeEv).1 =
      [⟨"DELETE", id, if rev.truthy then .obj [("rev", rev)] else .obj []⟩] := by
  refine ⟨?_, ?_, ?_⟩
  · simp [save, h]
  · simp [deleteDoc, h]
  · simp [deleteDoc]

theorem C6_force_missing_doc_keeps_revision_witness :
    (save ins0 "doc1" docNF true (.response ⟨404, none, jnull⟩)
        (.response writeOkResp)).1 =
      [existsCall "doc1", ⟨"PUT", "doc1", docNF⟩]
    ∧ (deleteDoc ins0 "doc1" (.str "1-old") true (.response ⟨404, none, jnull⟩)
        (.response writeOkResp)).1 =
      [existsCall "doc1", ⟨"DELETE", "doc1", .obj [("rev", .str "1-old")]⟩]
    ∧ (deleteDoc ins0 "doc1" (.str "1-old") false (.response ⟨404, none, jnull⟩)
        (.response writeOkResp)).1 =
      [⟨"DELETE", "doc1", .obj [("rev", .str "1-old")]⟩] :=
  C6_force_missing_doc_keeps_revision ins0 "doc1" docNF (.str "1-old") none
    (.response ⟨404, none, jnull⟩) (.response writeOkResp) (by decide)

/-- Claim C3 (amended): on a successful write response, the non-force path of
`save` passes the parsed response body (and the response) to the caller and
leaves the caller's document untouched; only the force path assigns the
response's `id` and `rev` fields into the document (as `undefined` when
absent, given a non-nullish body) and returns that same updated document.
The amendment relative to the claim as written: the in-place update and
same-object return happen only in the force path (see the counterexample). -/
theorem C3_save_result (ins : Instance) (id : String) (doc : JVal)
    (b : Option String) (probeEv : NetEvent) (r : HttpResponse)
    (hser : doc.writeData = .ok b) (hlt : r.statusCode < 300) :
    (save ins id doc false probeEv (.response r) =
        ([⟨if id == "" then "POST" else "PUT", id, doc⟩], .ok r.body r))
    ∧ (∀ found rv, existsFn ins id probeEv = .ok found rv →
        ∀ b2, (if found then doc.setField "_rev" (jrev rv) else doc).writeData = .ok b2 →
        r.body.nullish = false →
        save ins id doc true probeEv (.response r) =
          ([existsCall id,
            ⟨if id == "" then "POST" else "PUT", id,
             if found then doc.setField "_rev" (jrev rv) else doc⟩],
           .savedDoc (((if found then doc.setField "_rev" (jrev rv) else doc).setField
               "_id" (r.body.getF "id")).setField "_rev" (r.body.getF "rev")))) := by
  constructor
  · by_cases hid : id = ""
    · subst hid
      have hcw := client_write_ok ins "POST" "" doc b (.response r) (Or.inl rfl) hser
      simp [save, hcw, ClientResult.outcome, dispatch, classify_lt r hlt, passCb]
    · have hcw := client_write_ok ins "PUT" id doc b (.response r) (Or.inr rfl) hser
      simp [save, hid, hcw, ClientResult.outcome, dispatch, classify_lt r hlt, passCb]
  · intro found rv hpe b2 hw2 hnn
    by_cases hid : id = ""
    · subst hid
      have hcw := client_write_ok ins "POST" ""
        (if found then doc.setField "_rev" (jrev rv) else doc) b2 (.response r)
        (Or.inl rfl) hw2
      simp [save, hpe, hcw, ClientResult.outcome, dispatch, classify_lt r hlt,
        saveWriteCb, hnn]
    · have hcw := client_write_ok ins "PUT" id
        (if found then doc.setField "_rev" (jrev rv) else doc) b2 (.response r)
        (Or.inr rfl) hw2
      simp [save, hpe, hid, hcw, ClientResult.outcome, dispatch, classify_lt r hlt,
        saveWriteCb, hnn]

theorem C3_save_result_witness :
    save ins0 "a" docNF true (.response ⟨200, some "\"2-new\"", jnull⟩)
        (.response writeOkResp) =
      ([existsCall "a", ⟨"PUT", "a", docNF.setField "_rev" (.str "2-new")⟩],
       .savedDoc (((docNF.setField "_rev" (.str "2-new")).setField "_id"
           (writeOkBody.getF "id")).setField "_rev" (writeOkBody.getF "rev"))) :=
  (C3_save_result ins0 "a" docNF (some "\x7b\"name\":\"x\"\x7d")
      (.response ⟨200, some "\"2-new\"", jnull⟩) writeOkResp rfl (by decide)).2
    true (some "2-new") (by decide) (some "\x7b\"name\":\"x\",\"_rev\":\"2-new\"\x7d")
    rfl (by decide)

/-- Claim C3, counterexample to the claim as stated: a successful non-force
save hands the caller the parsed response body, not the caller's document —
the value handed over lacks the document's `name` field, so it is not the
same document object with identifier and revision updated, and the only
`client` call carries the document unmodified. -/
theorem C3_counterexample :
    save ins0 "a" docNF false (.response writeOkResp) (.response writeOkResp) =
      ([⟨"PUT", "a", docNF⟩], .ok writeOkBody writeOkResp)
    ∧ writeOkBody.getF "name" = .undefined
    ∧ docNF.getF "name" = .str "x"
    ∧ JPrim.undefined ≠ JPrim.str "x" :=
  ⟨by decide, by decide, by decide, by decide⟩

/-- Claim C7: `ensureDB` probes the root path first; if the probe reports
existence the outcome is success with no create request issued, if the probe
fails that error is returned with no create request, and only a
non-existence report triggers the `createDB` PUT — so a second call after
the database exists returns success rather than failing because it already
exists. -/
theorem C7_ensureDB_probes_first (ins : Instance) (probeEv createEv : NetEvent) :
    (∀ rv, existsFn ins "" probeEv = .ok true rv →
        ensureDB ins probeEv createEv = ([existsCall ""], .existsOk))
    ∧ (∀ e, existsFn ins "" probeEv = .err e →
        ensureDB ins probeEv createEv = ([existsCall ""], .errOut e))
    ∧ (∀ rv, existsFn ins "" probeEv = .ok false rv →
        ensureDB ins probeEv createEv =
          ([existsCall "", createDBCall],
           .created (client ins "PUT" "" jnull createEv).outcome)) := by
  refine ⟨?_, ?_, ?_⟩ <;> intro x h <;> simp [ensureDB, h]

theorem C7_ensureDB_probes_first_witness :
    ensureDB ins0 (.response ⟨200, none, jnull⟩) (.response writeOkResp) =
      ([existsCall ""], .existsOk) :=
  (C7_ensureDB_probes_first ins0 (.response ⟨200, none, jnull⟩)
      (.response writeOkResp)).1 none (by decide)
